import Mathlib

/-!
Shallow embedding of `src/riot_tournament_stats.py` (inhouse stats tracker).

JSON dictionaries returned by the remote API are modelled as Lean structures
whose fields are `Option`-valued: `p.get(key, default)` becomes
`Option.getD`.  An absent sub-dictionary is modelled as a structure all of
whose fields are `none` (Python's `d.get(k, {})` followed by `.get` calls is
observationally the same).  Python numbers are modelled as `Nat`/`Int` for
counters and timestamps and as `Rat` where the source performs true
division (`/ 1000`, `/ 60`); Python's `round(x, n)` (banker's rounding at
the n-th decimal digit) is modelled exactly on `Rat`, abstracting from
binary floating-point representation error.  Date formatting via
`strftime` is abstracted: the model keeps the raw timestamp where the
source keeps a formatted string, since no property here depends on the
textual format.
-/

namespace RiotStats

/-- `p.get(key, default)` on an optional JSON field. -/
def pget {α : Type} (o : Option α) (d : α) : α := o.getD d

/-- Round a rational to the nearest integer, ties to even
(the rounding mode of Python's built-in `round`). -/
def roundHalfEven (q : ℚ) : ℤ :=
  let f : ℤ := ⌊q⌋
  let r : ℚ := q - f
  if r < 1/2 then f
  else if 1/2 < r then f + 1
  else if Even f then f else f + 1

/-- Python's `round(q, n)`: round to `n` decimal digits, ties to even. -/
def pyRound (q : ℚ) (n : ℕ) : ℚ :=
  (roundHalfEven (q * 10 ^ n) : ℚ) / 10 ^ n

/-- `CUSTOM_QUEUE_IDS` from the configuration block (line 79). -/
def CUSTOM_QUEUE_IDS : List ℤ := [0, 3130]

/-- One objective entry such as `objectives["dragon"]`. -/
structure ObjEntry where
  kills : Option ℕ
  first : Option Bool
deriving Repr, DecidableEq

/-- The `objectives` sub-dictionary of one team. -/
structure Objectives where
  dragon : Option ObjEntry
  baron : Option ObjEntry
  riftHerald : Option ObjEntry
  horde : Option ObjEntry
  tower : Option ObjEntry
  inhibitor : Option ObjEntry
  atakhan : Option ObjEntry
  champion : Option ObjEntry
deriving Repr, DecidableEq

/-- One element of `info["teams"]`. -/
structure TeamEntry where
  teamId : Option ℕ
  objectives : Option Objectives
deriving Repr, DecidableEq

/-- One element of `info["participants"]`: exactly the fields the source
reads, each optional as in the JSON. -/
structure Participant where
  kills : Option ℕ
  deaths : Option ℕ
  assists : Option ℕ
  totalMinionsKilled : Option ℕ
  neutralMinionsKilled : Option ℕ
  totalDamageDealtToChampions : Option ℕ
  goldEarned : Option ℕ
  teamId : Option ℕ
  riotIdGameName : Option String
  summonerName : Option String
  riotIdTagline : Option String
  championName : Option String
  teamPosition : Option String
  doubleKills : Option ℕ
  tripleKills : Option ℕ
  quadraKills : Option ℕ
  pentaKills : Option ℕ
  physicalDamageDealtToChampions : Option ℕ
  magicDamageDealtToChampions : Option ℕ
  trueDamageDealtToChampions : Option ℕ
  totalDamageTaken : Option ℕ
  damageSelfMitigated : Option ℕ
  visionScore : Option ℕ
  wardsPlaced : Option ℕ
  wardsKilled : Option ℕ
  visionWardsBoughtInGame : Option ℕ
  turretKills : Option ℕ
  damageDealtToTurrets : Option ℕ
  damageDealtToObjectives : Option ℕ
  win : Option Bool
deriving Repr, DecidableEq

/-- The `info` dictionary of a match record. -/
structure MatchInfo where
  queueId : Option ℤ
  gameType : Option String
  gameStartTimestamp : Option ℤ
  gameDuration : Option ℕ
  participants : List Participant
  teams : List TeamEntry
deriving Repr, DecidableEq

/-- A fetched match record (`metadata.matchId` plus `info`). -/
structure MatchData where
  matchId : Option String
  info : MatchInfo
deriving Repr, DecidableEq

/-- A participant with every source field absent. -/
def emptyParticipant : Participant :=
  ⟨none, none, none, none, none, none, none, none, none, none, none, none,
   none, none, none, none, none, none, none, none, none, none, none, none,
   none, none, none, none, none, none⟩

/-- An `objectives` dictionary with every entry absent. -/
def emptyObjectives : Objectives := ⟨none, none, none, none, none, none, none, none⟩

/-- `is_inhouse_game` (source lines 216-231): the match qualifies iff it is
custom-typed (queue id in the allow-set, or game type `"CUSTOM_GAME"`) and
its start time (seconds, `gameStartTimestamp / 1000`) lies inclusively
inside some window. -/
def is_inhouse_game (md : MatchData) (windows : List (ℤ × ℤ)) : Bool :=
  let queue_id : ℤ := pget md.info.queueId (-1)
  let game_type : String := pget md.info.gameType ""
  let is_custom : Bool := CUSTOM_QUEUE_IDS.contains queue_id || game_type == "CUSTOM_GAME"
  if !is_custom then false
  else
    let game_start : ℚ := ((pget md.info.gameStartTimestamp 0 : ℤ) : ℚ) / 1000
    windows.any fun w => decide ((w.1 : ℚ) ≤ game_start) && decide (game_start ≤ (w.2 : ℚ))

/-- The `is_custom` re-check in `main`'s else-branch (source line 504).
The source uses the string sentinel `"?"` when `queueId` is absent; a
string is never equal to an integer in `CUSTOM_QUEUE_IDS`, so an absent
`queueId` yields `false` exactly as the sentinel does. -/
def mainIsCustom (md : MatchData) : Bool :=
  (match md.info.queueId with
   | some q => CUSTOM_QUEUE_IDS.contains q
   | none => false)
  || pget md.info.gameType "" == "CUSTOM_GAME"

/-- The three outcomes `main` counts per fetched match (lines 487-510). -/
inductive Classification where
  | qualifying
  | rightTypeWrongDate
  | wrongType
deriving Repr, DecidableEq

/-- The per-team record built by `get_team_objectives` (lines 239-268). -/
structure TeamObj where
  dragons : ℕ
  firstDragon : Bool
  barons : ℕ
  firstBaron : Bool
  heralds : ℕ
  firstHerald : Bool
  grubs : ℕ
  firstGrubs : Bool
  towers : ℕ
  firstTower : Bool
  inhibitors : ℕ
  firstInhibitor : Bool
  atakhan : ℕ
  firstBlood : Bool
deriving Repr, DecidableEq

/-- `objectives.get(name, {})`. -/
def objGet (o : Option ObjEntry) : ObjEntry := pget o ⟨none, none⟩

/-- The loop body of `get_team_objectives` for one team entry. -/
def mkTeamObj (t : TeamEntry) : TeamObj :=
  let os := pget t.objectives emptyObjectives
  { dragons := pget (objGet os.dragon).kills 0
    firstDragon := pget (objGet os.dragon).first false
    barons := pget (objGet os.baron).kills 0
    firstBaron := pget (objGet os.baron).first false
    heralds := pget (objGet os.riftHerald).kills 0
    firstHerald := pget (objGet os.riftHerald).first false
    grubs := pget (objGet os.horde).kills 0
    firstGrubs := pget (objGet os.horde).first false
    towers := pget (objGet os.tower).kills 0
    firstTower := pget (objGet os.tower).first false
    inhibitors := pget (objGet os.inhibitor).kills 0
    firstInhibitor := pget (objGet os.inhibitor).first false
    atakhan := pget (objGet os.atakhan).kills 0
    firstBlood := pget (objGet os.champion).first false }

/-- `get_team_objectives(match_data)[tid]` as a lookup: the source builds a
dict keyed by `teamId` (a later team with the same id overwrites an
earlier one, hence `getLast?`); teams without a `teamId` get the key
`None`, which never equals an integer key, hence the filter. -/
def get_team_objectives (md : MatchData) (tid : ℕ) : Option TeamObj :=
  ((md.info.teams.filter fun t => t.teamId = some tid).getLast?).map mkTeamObj

/-- One spreadsheet row produced by `extract_stats` (lines 322-355), with
named fields in source column order.  `gameStart` holds the raw start
time in seconds where the source holds `strftime`-formatted text. -/
structure OutputRow where
  gameStart : ℚ
  matchId : String
  gameDurationMin : ℚ
  team : String
  summonerName : String
  tagline : String
  champion : String
  role : String
  kills : ℕ
  deaths : ℕ
  assists : ℕ
  kda : ℚ
  doubleKills : ℕ
  tripleKills : ℕ
  quadraKills : ℕ
  pentaKills : ℕ
  damage : ℕ
  damagePerMin : ℤ
  physicalDamage : ℕ
  magicDamage : ℕ
  trueDamage : ℕ
  damageTaken : ℕ
  damageMitigated : ℕ
  cs : ℕ
  csPerMin : ℚ
  gold : ℕ
  goldPerMin : ℤ
  visionScore : ℕ
  wardsPlaced : ℕ
  wardsKilled : ℕ
  controlWards : ℕ
  turretKills : ℕ
  turretDamage : ℕ
  objectiveDamage : ℕ
  teamDragons : ℕ
  teamFirstDragon : String
  teamBarons : ℕ
  teamFirstBaron : String
  teamHeralds : ℕ
  teamFirstHerald : String
  teamGrubs : ℕ
  teamFirstGrubs : String
  teamTowers : ℕ
  teamFirstTower : String
  teamFirstBlood : String
  winLabel : String
deriving Repr, DecidableEq

/-- The body of the participant loop of `extract_stats` (lines 305-356):
one participant of one match produces one row. -/
def extractRow (md : MatchData) (p : Participant) : OutputRow :=
  let info := md.info
  let match_id := pget md.matchId "Unknown"
  let game_duration_min : ℚ := pyRound (((pget info.gameDuration 0 : ℕ) : ℚ) / 60) 1
  let game_start : ℚ := ((pget info.gameStartTimestamp 0 : ℤ) : ℚ) / 1000
  let kills := pget p.kills 0
  let deaths := pget p.deaths 0
  let assists := pget p.assists 0
  let cs := pget p.totalMinionsKilled 0 + pget p.neutralMinionsKilled 0
  let damage := pget p.totalDamageDealtToChampions 0
  let gold := pget p.goldEarned 0
  let kda := pyRound ((kills + assists : ℚ) / max (deaths : ℚ) 1) 2
  let cs_per_min := pyRound ((cs : ℚ) / max game_duration_min 1) 1
  let damage_per_min := pyRound ((damage : ℚ) / max game_duration_min 1) 0
  let gold_per_min := pyRound ((gold : ℚ) / max game_duration_min 1) 0
  let team_id := pget p.teamId 100
  let team := if team_id = 100 then "Blue" else "Red"
  let t_obj := get_team_objectives md team_id
  { gameStart := game_start
    matchId := match_id
    gameDurationMin := game_duration_min
    team := team
    summonerName := pget p.riotIdGameName (pget p.summonerName "Unknown")
    tagline := pget p.riotIdTagline ""
    champion := pget p.championName "Unknown"
    role := pget p.teamPosition "Unknown"
    kills := kills
    deaths := deaths
    assists := assists
    kda := kda
    doubleKills := pget p.doubleKills 0
    tripleKills := pget p.tripleKills 0
    quadraKills := pget p.quadraKills 0
    pentaKills := pget p.pentaKills 0
    damage := damage
    damagePerMin := ⌊damage_per_min⌋
    physicalDamage := pget p.physicalDamageDealtToChampions 0
    magicDamage := pget p.magicDamageDealtToChampions 0
    trueDamage := pget p.trueDamageDealtToChampions 0
    damageTaken := pget p.totalDamageTaken 0
    damageMitigated := pget p.damageSelfMitigated 0
    cs := cs
    csPerMin := cs_per_min
    gold := gold
    goldPerMin := ⌊gold_per_min⌋
    visionScore := pget p.visionScore 0
    wardsPlaced := pget p.wardsPlaced 0
    wardsKilled := pget p.wardsKilled 0
    controlWards := pget p.visionWardsBoughtInGame 0
    turretKills := pget p.turretKills 0
    turretDamage := pget p.damageDealtToTurrets 0
    objectiveDamage := pget p.damageDealtToObjectives 0
    teamDragons := pget (t_obj.map TeamObj.dragons) 0
    teamFirstDragon := if pget (t_obj.map TeamObj.firstDragon) false then "Yes" else "No"
    teamBarons := pget (t_obj.map TeamObj.barons) 0
    teamFirstBaron := if pget (t_obj.map TeamObj.firstBaron) false then "Yes" else "No"
    teamHeralds := pget (t_obj.map TeamObj.heralds) 0
    teamFirstHerald := if pget (t_obj.map TeamObj.firstHerald) false then "Yes" else "No"
    teamGrubs := pget (t_obj.map TeamObj.grubs) 0
    teamFirstGrubs := if pget (t_obj.map TeamObj.firstGrubs) false then "Yes" else "No"
    teamTowers := pget (t_obj.map TeamObj.towers) 0
    teamFirstTower := if pget (t_obj.map TeamObj.firstTower) false then "Yes" else "No"
    teamFirstBlood := if pget (t_obj.map TeamObj.firstBlood) false then "Yes" else "No"
    winLabel := if pget p.win false then "Win" else "Loss" }

/-- `extract_stats` (lines 292-358): one row per participant. -/
def extract_stats (md : MatchData) : List OutputRow :=
  md.info.participants.map (extractRow md)

/-- The per-match step of `main`'s filtering loop (lines 487-510):
classify the match and emit its rows (rows only when qualifying). -/
def processMatch (md : MatchData) (windows : List (ℤ × ℤ)) :
    Classification × List OutputRow :=
  if is_inhouse_game md windows then (.qualifying, extract_stats md)
  else if mainIsCustom md then (.rightTypeWrongDate, [])
  else (.wrongType, [])

/-- `STAT_HEADERS` (lines 275-289). -/
def STAT_HEADERS : List String :=
  ["Date", "Match ID", "Game Duration (min)",
   "Team", "Summoner Name", "Tag", "Champion", "Role",
   "Kills", "Deaths", "Assists", "KDA",
   "Double Kills", "Triple Kills", "Quadra Kills", "Penta Kills",
   "Total Damage to Champions", "Damage/min", "Physical Damage", "Magic Damage",
   "True Damage", "Damage Taken", "Damage Mitigated",
   "CS", "CS/min", "Gold Earned", "Gold/min",
   "Vision Score", "Wards Placed", "Wards Killed", "Control Wards Bought",
   "Turret Kills", "Turret Damage", "Objective Damage",
   "Team Dragons", "Team First Dragon", "Team Barons", "Team First Baron",
   "Team Heralds", "Team First Herald", "Team Grubs", "Team First Grubs",
   "Team Towers", "Team First Tower", "Team First Blood",
   "Win"]

/-- A worksheet: occupied rows top to bottom, each a list of cell values
(spreadsheet cells, as strings as `get_all_values` returns them). -/
abbrev Worksheet := List (List String)

/-- Writing a row over an existing one (`worksheet.update` semantics):
the new values replace the old cells columnwise; old cells to the right
of the written range survive. -/
def overwriteRow (old new : List String) : List String :=
  new ++ old.drop new.length

/-- Write `news` over consecutive existing rows `olds` (rows of `olds`
beyond `news` survive; rows of `news` beyond `olds` extend the sheet). -/
def writeRows (olds news : Worksheet) : Worksheet :=
  match news with
  | [] => olds
  | r :: rs => overwriteRow (olds.headD []) r :: writeRows olds.tail rs

/-- `worksheet.update` at 0-based row `n`: rows before `n` are untouched
(padded with empty rows when the sheet is shorter than `n`). -/
def updateAt (ws : Worksheet) (n : ℕ) (rows : Worksheet) : Worksheet :=
  let base := ws ++ List.replicate (n - ws.length) []
  base.take n ++ writeRows (base.drop n) rows

/-- The header phase of `write_to_sheet` (lines 392-399): write
`STAT_HEADERS` into row 1 when the first row is empty/absent or its first
cell differs from `STAT_HEADERS[0]`. -/
def ensureHeader (ws : Worksheet) : Worksheet :=
  let first_row := ws.headD []
  if first_row = [] ∨ first_row.headD "" ≠ STAT_HEADERS.headD "" then
    updateAt ws 0 [STAT_HEADERS]
  else ws

/-- `write_to_sheet` (lines 390-407): ensure the header, then — when there
is data — write the data rows starting at `len(get_all_values()) + 1`
(1-based), i.e. right after the last occupied row. -/
def write_to_sheet (ws : Worksheet) (all_rows : Worksheet) : Worksheet :=
  let ws1 := ensureHeader ws
  if all_rows ≠ [] then updateAt ws1 ws1.length all_rows else ws1

/-- `batch_size` in `get_all_match_ids` (line 146). -/
def batch_size : ℕ := 100

/-- One iteration's worth of remote responses inside `get_all_match_ids`:
either the history request failed (non-200), or it returned a batch of ids
together with the result of the detail "peek" at the batch's last id —
`none` when that detail request was non-200, `some ts` (the match's
`gameStartTimestamp` in milliseconds, defaulted to 0) when it was 200. -/
inductive HistoryResp where
  | err
  | ok (batch : List String) (peek : Option ℤ)
deriving Repr, DecidableEq

/-- `get_all_match_ids` (lines 139-198) over a sequence of responses, one
per page request.  Stops on request failure, an empty batch, a successful
peek whose timestamp (seconds) precedes `earliest`, or a short batch; an
exhausted response list ends the run with what was accumulated. -/
def get_all_match_ids (earliest : ℤ) : List HistoryResp → List String
  | [] => []
  | .err :: _ => []
  | .ok batch peek :: rest =>
    if batch.isEmpty then []
    else
      batch ++
        match peek with
        | some ms =>
          if (ms : ℚ) / 1000 < (earliest : ℚ) then []
          else if batch.length < batch_size then [] else get_all_match_ids earliest rest
        | none =>
          if batch.length < batch_size then [] else get_all_match_ids earliest rest

/-- Adding one id to the accumulated `all_match_ids`: Python-set semantics
on an insertion-ordered duplicate-free list. -/
def insertId (s : List String) (x : String) : List String :=
  if x ∈ s then s else s ++ [x]

/-- `all_match_ids.update(match_ids)` (line 463). -/
def updateIds (s : List String) (ids : List String) : List String :=
  ids.foldl insertId s

/-- Match discovery across all tracked players (lines 443-464): union each
player's returned history into one global set. -/
def discoverAll (histories : List (List String)) : List String :=
  histories.foldl updateIds []

/-- The day-offset decision of `get_game_time_windows`'s auto-detect branch
(lines 104-108): `days_since = (today.weekday() - day_of_week) % 7`, bumped
to 7 when it is 0 but the local hour is before 12.  The window date is
`today - days_since` days; calendar arithmetic itself is abstracted to
this offset. -/
def autoDetectDaysSince (todayWeekday day_of_week todayHour : ℕ) : ℕ :=
  if (((todayWeekday : ℤ) - (day_of_week : ℤ)) % 7).toNat = 0 ∧ todayHour < 12 then 7
  else (((todayWeekday : ℤ) - (day_of_week : ℤ)) % 7).toNat

/-- Modelled from the spec: tournament-code mode (§4.3, §8) is absent from
`src/` — the source only implements player-history mode although its
docstring mentions tournament codes.  Per the spec, the per-code run takes
the id list returned by the code lookup and a per-match row producer; an
empty list yields zero rows and the log line "No matches found for this
code", and no path raises a fatal error (the Bool flag). -/
def runTournamentCode (matchIds : List String)
    (rowsOf : String → List OutputRow) : List OutputRow × List String × Bool :=
  if matchIds.isEmpty then ([], ["No matches found for this code"], false)
  else (matchIds.flatMap rowsOf, [], false)

/-! Helper lemmas. -/

lemma writeRows_nil_olds (news : Worksheet) : writeRows [] news = news := by
  induction news with
  | nil => rfl
  | cons r rs ih => simp [writeRows, overwriteRow, ih]

lemma updateAt_length (ws rows : Worksheet) : updateAt ws ws.length rows = ws ++ rows := by
  simp [updateAt, writeRows_nil_olds]

lemma updateAt_zero (ws : Worksheet) (r : List String) :
    updateAt ws 0 [r] = overwriteRow (ws.headD []) r :: ws.tail := by
  simp [updateAt, writeRows]

lemma ensureHeader_spec (ws : Worksheet) :
    ensureHeader ws =
      if ws.headD [] = [] ∨ (ws.headD []).headD "" ≠ "Date" then
        overwriteRow (ws.headD []) STAT_HEADERS :: ws.tail
      else ws := by
  have h0 : STAT_HEADERS.headD "" = "Date" := rfl
  simp only [ensureHeader, h0, updateAt_zero]

lemma mem_insertId {s : List String} {x y : String} :
    y ∈ insertId s x ↔ y ∈ s ∨ y = x := by
  unfold insertId
  by_cases h : x ∈ s
  · simp only [if_pos h]
    exact ⟨Or.inl, fun hy => hy.elim id fun e => e ▸ h⟩
  · simp [if_neg h]

lemma nodup_insertId {s : List String} {x : String} (h : s.Nodup) :
    (insertId s x).Nodup := by
  unfold insertId
  by_cases hx : x ∈ s
  · simpa [if_pos hx]
  · simp [if_neg hx, List.nodup_append, h, hx]

lemma mem_updateIds {s ids : List String} {y : String} :
    y ∈ updateIds s ids ↔ y ∈ s ∨ y ∈ ids := by
  induction ids generalizing s with
  | nil => simp [updateIds]
  | cons a as ih =>
    show y ∈ updateIds (insertId s a) as ↔ _
    rw [ih, mem_insertId]
    simp only [List.mem_cons]
    tauto

lemma nodup_updateIds {s ids : List String} (h : s.Nodup) :
    (updateIds s ids).Nodup := by
  induction ids generalizing s with
  | nil => exact h
  | cons a as ih => exact ih (nodup_insertId h)

lemma mem_discoverAll_aux (hs : List (List String)) (s : List String) (y : String) :
    y ∈ hs.foldl updateIds s ↔ y ∈ s ∨ ∃ l ∈ hs, y ∈ l := by
  induction hs generalizing s with
  | nil => simp
  | cons l ls ih =>
    show y ∈ ls.foldl updateIds (updateIds s l) ↔ _
    rw [ih, mem_updateIds]
    simp only [List.mem_cons]
    constructor
    · rintro ((h | h) | ⟨l', hl', hy⟩)
      · exact Or.inl h
      · exact Or.inr ⟨l, Or.inl rfl, h⟩
      · exact Or.inr ⟨l', Or.inr hl', hy⟩
    · rintro (h | ⟨l', hl' | hl', hy⟩)
      · exact Or.inl (Or.inl h)
      · exact Or.inl (Or.inr (hl' ▸ hy))
      · exact Or.inr ⟨l', hl', hy⟩

lemma nodup_discoverAll_aux (hs : List (List String)) (s : List String) (h : s.Nodup) :
    (hs.foldl updateIds s).Nodup := by
  induction hs generalizing s with
  | nil => exact h
  | cons l ls ih => exact ih _ (nodup_updateIds h)

lemma pyRound_zero (q : ℚ) : pyRound q 0 = (roundHalfEven q : ℚ) := by
  simp [pyRound]

lemma mainIsCustom_iff (md : MatchData) :
    mainIsCustom md = true ↔
      (pget md.info.queueId (-1) ∈ CUSTOM_QUEUE_IDS ∨
       pget md.info.gameType "" = "CUSTOM_GAME") := by
  unfold mainIsCustom
  cases hq : md.info.queueId with
  | none => simp [pget, hq, CUSTOM_QUEUE_IDS]
  | some q => simp [pget, hq]

end RiotStats

namespace RiotStats

/-- C5: in tournament-code mode, an empty match list for a code produces
zero output rows, the log line "No matches found for this code", and no
fatal error (spec-modelled: the tournament-code path is not in src/). -/
theorem tournament_code_empty_lookup (rowsOf : String → List OutputRow) :
    runTournamentCode [] rowsOf = ([], ["No matches found for this code"], false) := rfl

/-- C7: a history batch strictly shorter than the requested batch size of
100 ends pagination right after being accumulated, whatever the oldest-match
peek produced and whatever later responses would have said. -/
theorem short_batch_stops_paging (e : ℤ) (batch : List String) (peek : Option ℤ)
    (rest : List HistoryResp) (h1 : batch ≠ []) (h2 : batch.length < batch_size) :
    get_all_match_ids e (.ok batch peek :: rest) = batch := by
  cases peek with
  | none => simp [get_all_match_ids, h1, h2]
  | some ms =>
    by_cases hms : (ms : ℚ) / 1000 < (e : ℚ)
    · simp [get_all_match_ids, h1, hms]
    · simp [get_all_match_ids, h1, hms, h2]

/-- Witness for C7 at a one-element batch. -/
theorem short_batch_stops_paging_witness :
    (["a"] : List String) ≠ [] ∧ (["a"] : List String).length < batch_size ∧
    get_all_match_ids 5 [.ok ["a"] (some 0)] = ["a"] :=
  ⟨by decide, by decide, short_batch_stops_paging 5 ["a"] (some 0) [] (by decide) (by decide)⟩

/-- C10: when the detail peek at the oldest match of a full-size batch
fails (non-200), the date-boundary comparison is skipped and pagination
continues with the next response, so discovery can page past the earliest
window boundary. -/
theorem peek_failure_skips_date_stop (e : ℤ) (batch : List String)
    (rest : List HistoryResp) (h : batch.length = batch_size) :
    get_all_match_ids e (.ok batch none :: rest) = batch ++ get_all_match_ids e rest := by
  have hne : batch ≠ [] := by
    intro hb
    rw [hb] at h
    simp [batch_size] at h
  simp [get_all_match_ids, hne, h]

/-- Witness for C10: a full batch with a failed peek is followed by a
further page being consumed. -/
theorem peek_failure_skips_date_stop_witness :
    (List.replicate 100 "m").length = batch_size ∧
    get_all_match_ids 0 [.ok (List.replicate 100 "m") none, .ok ["n"] none] =
      List.replicate 100 "m" ++ get_all_match_ids 0 [.ok ["n"] none] :=
  ⟨by decide, peek_failure_skips_date_stop 0 (List.replicate 100 "m") [.ok ["n"] none] (by decide)⟩

/-- C6: when two tracked players' histories both contain the same match id,
the accumulated global set contains that id exactly once after discovery,
so its detail record is fetched at most once. -/
theorem discovery_dedup (histories : List (List String)) (l1 l2 : List String)
    (mid : String) (h1 : l1 ∈ histories) (h2 : l2 ∈ histories)
    (hm1 : mid ∈ l1) (hm2 : mid ∈ l2) :
    (discoverAll histories).count mid = 1 := by
  have hn : (discoverAll histories).Nodup :=
    nodup_discoverAll_aux histories [] List.nodup_nil
  have hm : mid ∈ discoverAll histories :=
    (mem_discoverAll_aux histories [] mid).2 (Or.inr ⟨l1, h1, hm1⟩)
  exact List.count_eq_one_of_mem hn hm

/-- Witness for C6: two players share match "a". -/
theorem discovery_dedup_witness :
    (["a"] : List String) ∈ [["a"], ["a", "b"]] ∧
    (["a", "b"] : List String) ∈ [["a"], ["a", "b"]] ∧
    (discoverAll [["a"], ["a", "b"]]).count "a" = 1 :=
  ⟨by decide, by decide,
   discovery_dedup [["a"], ["a", "b"]] ["a"] ["a", "b"] "a"
     (by decide) (by decide) (by decide) (by decide)⟩

/-- C8: running the writer on a worksheet whose first row is already the
header leaves the sheet equal to the old content followed by the data
rows: the header is not rewritten or duplicated, so runs are idempotent
with respect to the header. -/
theorem header_not_duplicated (rest rows : Worksheet) :
    write_to_sheet (STAT_HEADERS :: rest) rows = STAT_HEADERS :: (rest ++ rows) := by
  have hh : ensureHeader (STAT_HEADERS :: rest) = STAT_HEADERS :: rest := by
    rw [ensureHeader_spec]
    simp [STAT_HEADERS]
  unfold write_to_sheet
  rw [hh]
  by_cases hr : rows = []
  · simp [hr]
  · rw [if_pos hr, updateAt_length]
    rfl

/-- C3 counterexample: a sheet whose only row is `["X"]` does not keep its
occupied cell — the header write replaces it. -/
theorem sheet_overwrites_mismatched_first_row :
    (([["X"]] : Worksheet).headD []).headD "" = "X" ∧
    ((write_to_sheet [["X"]] [["r"]]).headD []).headD "" = "Date" ∧
    ("X" : String) ≠ "Date" :=
  ⟨rfl, rfl, by decide⟩

/-- C3 amended: with a non-empty data batch, the writer appends all data
rows immediately after the last occupied row of the header-ensured sheet
and leaves rows 2..n unchanged; row 1 is kept exactly when it is present
and its first cell already equals the header's first cell, and is
otherwise overwritten columnwise by the header row. -/
theorem sheet_append_preserves_rows (ws rows : Worksheet) (h : rows ≠ []) :
    write_to_sheet ws rows = ensureHeader ws ++ rows ∧
    (ensureHeader ws).tail = ws.tail ∧
    (ws.headD [] ≠ [] → (ws.headD []).headD "" = "Date" → ensureHeader ws = ws) ∧
    (ws.headD [] = [] ∨ (ws.headD []).headD "" ≠ "Date" →
      ensureHeader ws = overwriteRow (ws.headD []) STAT_HEADERS :: ws.tail) := by
  refine ⟨?_, ?_, ?_, ?_⟩
  · simp only [write_to_sheet]
    rw [if_pos h, updateAt_length]
  · rw [ensureHeader_spec]
    split_ifs <;> simp
  · intro h1 h2
    rw [ensureHeader_spec, if_neg]
    push_neg
    exact ⟨h1, h2⟩
  · intro hc
    rw [ensureHeader_spec, if_pos hc]

/-- Witness for C3's amended theorem on an initially empty sheet. -/
theorem sheet_append_preserves_rows_witness :
    ([["r"]] : Worksheet) ≠ [] ∧
    write_to_sheet [] [["r"]] = ensureHeader [] ++ [["r"]] :=
  ⟨by decide, (sheet_append_preserves_rows [] [["r"]] (by decide)).1⟩

/-- C4: in auto-detect mode today is selected (offset 0) iff today is the
target weekday and the local hour is at least 12; on the target weekday
before noon the resolver goes a full 7 days back; otherwise the offset is
the unique most recent prior day whose weekday is the target. -/
theorem auto_detect_day_selection (wd target hour : ℕ)
    (hwd : wd < 7) (htg : target < 7) :
    (autoDetectDaysSince wd target hour = 0 ↔ wd = target ∧ 12 ≤ hour) ∧
    (wd = target → hour < 12 → autoDetectDaysSince wd target hour = 7) ∧
    autoDetectDaysSince wd target hour ≤ 7 ∧
    ((wd : ℤ) - autoDetectDaysSince wd target hour) % 7 = (target : ℤ) % 7 ∧
    (∀ k : ℕ, 0 < k → k < autoDetectDaysSince wd target hour →
      ((wd : ℤ) - k) % 7 ≠ (target : ℤ) % 7) := by
  have key : ((((wd : ℤ) - (target : ℤ)) % 7).toNat = 0) ↔ wd = target := by omega
  unfold autoDetectDaysSince
  refine ⟨?_, ?_, ?_, ?_, ?_⟩
  · split_ifs with h
    · obtain ⟨h1, h2⟩ := h
      exact ⟨fun h0 => absurd h0 (by decide), fun hc => absurd hc.2 (by omega)⟩
    · rw [not_and, not_lt] at h
      rw [key]
      rw [key] at h
      exact ⟨fun he => ⟨he, h he⟩, fun hc => hc.1⟩
  · intro h1 h2
    split_ifs with h
    · rfl
    · exact absurd ⟨key.2 h1, h2⟩ h
  · split_ifs with h <;> omega
  · split_ifs with h
    · obtain ⟨h1, h2⟩ := h
      omega
    · omega
  · intro k hk0 hk
    split_ifs at hk with h
    · obtain ⟨h1, h2⟩ := h
      omega
    · omega

/-- Witness for C4: Wednesday (2) with target Monday (0) at 03:00 goes
back two days. -/
theorem auto_detect_day_selection_witness :
    (2 : ℕ) < 7 ∧ (0 : ℕ) < 7 ∧
    autoDetectDaysSince 2 0 3 ≤ 7 ∧
    ((2 : ℤ) - autoDetectDaysSince 2 0 3) % 7 = (0 : ℤ) % 7 :=
  ⟨by decide, by decide,
   (auto_detect_day_selection 2 0 3 (by decide) (by decide)).2.2.1,
   (auto_detect_day_selection 2 0 3 (by decide) (by decide)).2.2.2.1⟩

/-- A custom game (queue 0) starting at second 99000 against a window
ending at second 10: right type, wrong date. -/
def sampleWrongDateMatch : MatchData :=
  { matchId := some "NA1_1"
    info :=
      { queueId := some 0
        gameType := none
        gameStartTimestamp := some 99000000
        gameDuration := none
        participants := []
        teams := [] } }

/-- C1: a fetched match qualifies iff it is custom-typed (queue id in the
allow-set or game type "CUSTOM_GAME") and its start second lies inside
some window inclusively; a custom-typed match in no window is classified
right-type-wrong-date and emits no rows. -/
theorem classifier_decision (md : MatchData) (windows : List (ℤ × ℤ)) :
    (is_inhouse_game md windows = true ↔
      ((pget md.info.queueId (-1) ∈ CUSTOM_QUEUE_IDS ∨
        pget md.info.gameType "" = "CUSTOM_GAME") ∧
       ∃ w ∈ windows,
         (w.1 : ℚ) ≤ ((pget md.info.gameStartTimestamp 0 : ℤ) : ℚ) / 1000 ∧
         ((pget md.info.gameStartTimestamp 0 : ℤ) : ℚ) / 1000 ≤ (w.2 : ℚ))) ∧
    ((pget md.info.queueId (-1) ∈ CUSTOM_QUEUE_IDS ∨
      pget md.info.gameType "" = "CUSTOM_GAME") →
     (¬ ∃ w ∈ windows,
        (w.1 : ℚ) ≤ ((pget md.info.gameStartTimestamp 0 : ℤ) : ℚ) / 1000 ∧
        ((pget md.info.gameStartTimestamp 0 : ℤ) : ℚ) / 1000 ≤ (w.2 : ℚ)) →
     processMatch md windows = (Classification.rightTypeWrongDate, [])) := by
  have key : is_inhouse_game md windows = true ↔
      ((pget md.info.queueId (-1) ∈ CUSTOM_QUEUE_IDS ∨
        pget md.info.gameType "" = "CUSTOM_GAME") ∧
       ∃ w ∈ windows,
         (w.1 : ℚ) ≤ ((pget md.info.gameStartTimestamp 0 : ℤ) : ℚ) / 1000 ∧
         ((pget md.info.gameStartTimestamp 0 : ℤ) : ℚ) / 1000 ≤ (w.2 : ℚ)) := by
    by_cases hc : (pget md.info.queueId (-1) ∈ CUSTOM_QUEUE_IDS ∨
        pget md.info.gameType "" = "CUSTOM_GAME")
    · have hb : (CUSTOM_QUEUE_IDS.contains (pget md.info.queueId (-1)) ||
          (pget md.info.gameType "" == "CUSTOM_GAME")) = true := by
        simpa using hc
      simp [is_inhouse_game, hb, hc, List.any_eq_true]
    · have hb : (CUSTOM_QUEUE_IDS.contains (pget md.info.queueId (-1)) ||
          (pget md.info.gameType "" == "CUSTOM_GAME")) = false :=
        Bool.eq_false_iff.mpr (by simpa using hc)
      simp [is_inhouse_game, hb, hc]
  refine ⟨key, fun hcust hwin => ?_⟩
  have h1 : is_inhouse_game md windows = false := by
    cases hgame : is_inhouse_game md windows
    · rfl
    · exact absurd (key.1 hgame).2 hwin
  have h2 : mainIsCustom md = true := (mainIsCustom_iff md).2 hcust
  simp [processMatch, h1, h2]

/-- Witness for C1: the sample custom game outside the single window is
counted as right-type-wrong-date with no rows. -/
theorem classifier_decision_witness :
    processMatch sampleWrongDateMatch [(0, 10)] = (Classification.rightTypeWrongDate, []) :=
  (classifier_decision sampleWrongDateMatch [(0, 10)]).2 (by decide)
    (by
      rintro ⟨w, hw, h1, h2⟩
      simp only [List.mem_singleton] at hw
      subst hw
      norm_num [sampleWrongDateMatch, pget, Option.getD] at h2)

/-- A participant with plausible concrete raw counters. -/
def sampleParticipant : Participant :=
  { emptyParticipant with
      totalMinionsKilled := some 200
      neutralMinionsKilled := some 50
      totalDamageDealtToChampions := some 25000
      goldEarned := some 12500 }

/-- A 1500-second match containing `sampleParticipant`. -/
def sampleDurationMatch : MatchData :=
  { matchId := some "NA1_1"
    info :=
      { queueId := some 0
        gameType := none
        gameStartTimestamp := some 0
        gameDuration := some 1500
        participants := [sampleParticipant]
        teams := [] } }

/-- C2: every row's duration is round(D/60, 1), and each per-minute rate
divides by max of that already-rounded duration and 1 — not by the
unrounded D/60. -/
theorem double_rounded_rates (md : MatchData) (p : Participant)
    (hp : p ∈ md.info.participants) :
    extractRow md p ∈ extract_stats md ∧
    (extractRow md p).gameDurationMin =
      pyRound (((pget md.info.gameDuration 0 : ℕ) : ℚ) / 60) 1 ∧
    (extractRow md p).csPerMin =
      pyRound (((pget p.totalMinionsKilled 0 + pget p.neutralMinionsKilled 0 : ℕ) : ℚ) /
        max (pyRound (((pget md.info.gameDuration 0 : ℕ) : ℚ) / 60) 1) 1) 1 ∧
    ((extractRow md p).damagePerMin : ℚ) =
      pyRound (((pget p.totalDamageDealtToChampions 0 : ℕ) : ℚ) /
        max (pyRound (((pget md.info.gameDuration 0 : ℕ) : ℚ) / 60) 1) 1) 0 ∧
    ((extractRow md p).goldPerMin : ℚ) =
      pyRound (((pget p.goldEarned 0 : ℕ) : ℚ) /
        max (pyRound (((pget md.info.gameDuration 0 : ℕ) : ℚ) / 60) 1) 1) 0 := by
  refine ⟨List.mem_map_of_mem _ hp, rfl, rfl, ?_, ?_⟩ <;>
    simp [extractRow, pyRound_zero, Int.floor_intCast]

/-- Witness for C2: a 1500 s game gives 25.0 minutes and CS/min 10. -/
theorem double_rounded_rates_witness :
    sampleParticipant ∈ sampleDurationMatch.info.participants ∧
    (extractRow sampleDurationMatch sampleParticipant).gameDurationMin = 25 ∧
    (extractRow sampleDurationMatch sampleParticipant).csPerMin = 10 := by
  have h := double_rounded_rates sampleDurationMatch sampleParticipant (by decide)
  refine ⟨by decide, ?_, ?_⟩
  · rw [h.2.1]
    norm_num [pyRound, roundHalfEven, pget, Option.getD, sampleDurationMatch]
  · rw [h.2.2.1]
    norm_num [pyRound, roundHalfEven, pget, Option.getD, max_def,
      sampleDurationMatch, sampleParticipant, emptyParticipant]

/-- A match record every one of whose source fields is absent. -/
def allAbsentMatch : MatchData :=
  { matchId := none
    info :=
      { queueId := none
        gameType := none
        gameStartTimestamp := none
        gameDuration := none
        participants := [emptyParticipant]
        teams := [] } }

/-- C9 counterexample: with both name fields absent, the summoner-name
cell defaults to "Unknown", not to the empty string the claim states. -/
theorem name_default_counterexample :
    emptyParticipant.riotIdGameName = none ∧
    emptyParticipant.summonerName = none ∧
    (extractRow allAbsentMatch emptyParticipant).summonerName = "Unknown" ∧
    ("Unknown" : String) ≠ "" :=
  ⟨rfl, rfl, rfl, by decide⟩

/-- C9 amended: absent fields default to 0 for counters, the empty string
for the tagline, and "Unknown" for the summoner name (when both name
fields are absent), champion name and role. -/
theorem missing_field_defaults (md : MatchData) (p : Participant) :
    (p.riotIdTagline = none → (extractRow md p).tagline = "") ∧
    (p.championName = none → (extractRow md p).champion = "Unknown") ∧
    (p.teamPosition = none → (extractRow md p).role = "Unknown") ∧
    (p.riotIdGameName = none → p.summonerName = none →
      (extractRow md p).summonerName = "Unknown") ∧
    (p.kills = none → (extractRow md p).kills = 0) ∧
    (p.deaths = none → (extractRow md p).deaths = 0) ∧
    (p.assists = none → (extractRow md p).assists = 0) ∧
    (p.totalMinionsKilled = none → p.neutralMinionsKilled = none →
      (extractRow md p).cs = 0) ∧
    (p.totalDamageDealtToChampions = none → (extractRow md p).damage = 0) ∧
    (p.goldEarned = none → (extractRow md p).gold = 0) ∧
    (p.doubleKills = none → (extractRow md p).doubleKills = 0) ∧
    (p.tripleKills = none → (extractRow md p).tripleKills = 0) ∧
    (p.quadraKills = none → (extractRow md p).quadraKills = 0) ∧
    (p.pentaKills = none → (extractRow md p).pentaKills = 0) ∧
    (p.physicalDamageDealtToChampions = none → (extractRow md p).physicalDamage = 0) ∧
    (p.magicDamageDealtToChampions = none → (extractRow md p).magicDamage = 0) ∧
    (p.trueDamageDealtToChampions = none → (extractRow md p).trueDamage = 0) ∧
    (p.totalDamageTaken = none → (extractRow md p).damageTaken = 0) ∧
    (p.damageSelfMitigated = none → (extractRow md p).damageMitigated = 0) ∧
    (p.visionScore = none → (extractRow md p).visionScore = 0) ∧
    (p.wardsPlaced = none → (extractRow md p).wardsPlaced = 0) ∧
    (p.wardsKilled = none → (extractRow md p).wardsKilled = 0) ∧
    (p.visionWardsBoughtInGame = none → (extractRow md p).controlWards = 0) ∧
    (p.turretKills = none → (extractRow md p).turretKills = 0) ∧
    (p.damageDealtToTurrets = none → (extractRow md p).turretDamage = 0) ∧
    (p.damageDealtToObjectives = none → (extractRow md p).objectiveDamage = 0) := by
  refine ⟨?_, ?_, ?_, ?_, ?_, ?_, ?_, ?_, ?_, ?_, ?_, ?_, ?_, ?_, ?_, ?_, ?_,
    ?_, ?_, ?_, ?_, ?_, ?_, ?_, ?_, ?_⟩ <;>
    (intros; simp [extractRow, pget, *])

/-- Witness for C9's amended theorem at the all-absent participant. -/
theorem missing_field_defaults_witness :
    (extractRow allAbsentMatch emptyParticipant).tagline = "" ∧
    (extractRow allAbsentMatch emptyParticipant).summonerName = "Unknown" ∧
    (extractRow allAbsentMatch emptyParticipant).kills = 0 := by
  have h := missing_field_defaults allAbsentMatch emptyParticipant
  exact ⟨h.1 rfl, h.2.2.2.1 rfl rfl, h.2.2.2.2.1 rfl⟩

end RiotStats
